import Mathlib

/-!
Shallow embedding of `app/main.py` (a FastAPI wrapper around the Kokoro TTS
engine) and proofs about its synthesis request lifecycle:
validation, engine-availability check, timeout/retry execution of the
synthesis pipeline, artifact naming and write, and cleanup.

Modelling conventions:
- Python strings are Lean `String`s; `str.strip()` is `pyStrip`.
- The external engine is abstracted by the sequence of items its generator
  yields (`PipelineEnv.items`), whether `KPipeline(lang_code=...)` construction
  succeeds (`initOk`), and whether the `soundfile` write succeeds (`writeOk`).
  Audio buffers (numpy arrays) are abstracted as `Nat`.
- The artifact file for the request is tracked as a `FileState`; `unlink` on an
  existing file is modelled as succeeding except where an explicit
  `UnlinkOutcome` parameter says otherwise (`cleanup_file`).
- Exceptions are `Except`; HTTP error responses are the `HTTPError` inductive.
- Wall-clock duration of a pipeline run is an explicit `duration : Nat`
  (seconds), compared against `PIPELINE_TIMEOUT` wherever the code applies
  `asyncio.wait_for`.
-/

namespace TTS

/- ---------- Configuration (main.py, "Configuration" block) ---------- -/

def MAX_TEXT_LENGTH : Nat := 3000
def AUDIO_SR : Nat := 24000
def DEFAULT_VOICE : String := "af_heart"
def DEFAULT_LANG : String := "f"
def PIPELINE_TIMEOUT : Nat := 60
def FILE_CLEANUP_DELAY : Nat := 300

/- ---------- Python string helpers ---------- -/

/-- The characters Python's `str.strip()` removes (ASCII whitespace). -/
def isPySpace (c : Char) : Bool :=
  c = ' ' || c = '\t' || c = '\n' || c = '\x0d' || c = '\x0b' || c = '\x0c'

/-- Python `s.strip()`: drop leading and trailing whitespace. -/
def pyStrip (s : String) : String :=
  String.mk (((s.data.dropWhile isPySpace).reverse.dropWhile isPySpace).reverse)

/-- Python `v or default` on an optional string: `None` and `""` are falsy. -/
def pyOr (v : Option String) (d : String) : String :=
  match v with
  | none => d
  | some s => if s = "" then d else s

/- ---------- Artifact naming (safe_filename, main.py) ---------- -/

/-- Decimal digit character, `48 + d` is the code of the digit for `d < 10`. -/
def digitChar (d : Nat) : Char := Char.ofNat (48 + d)

/-- Standard decimal rendering, most significant digit first; structural
recursion on a fuel argument (`fuel > n` always holds on the recursive path,
since `n / 10 < n` for `n ≥ 10`, so the `[]` base case is unreachable). -/
def decimalDigitsAux : Nat → Nat → List Char
  | 0, _ => []
  | fuel + 1, n =>
    if n < 10 then [digitChar n]
    else decimalDigitsAux fuel (n / 10) ++ [digitChar (n % 10)]

/-- Standard decimal rendering of a natural number, most significant digit
first; models the `\x7bts\x7d` interpolation in the f-string. -/
def decimalDigits (n : Nat) : List Char := decimalDigitsAux (n + 1) n

def natStr (n : Nat) : String := String.mk (decimalDigits n)

/-- Artifact naming `safe_filename(ts) = f"kokoro_\x7bts\x7d.wav"`: fixed
stem, decimal millisecond timestamp, fixed extension. -/
def safe_filename (ts : Nat) : String := "kokoro_" ++ natStr ts ++ ".wav"

/- ---------- cleanup_file (main.py) ---------- -/

/-- Whether the OS-level `path.unlink()` call succeeds or raises. -/
inductive UnlinkOutcome
  | success
  | failure
deriving DecidableEq, Repr

/-- OS call `path.unlink()`: on success the file is gone (`ok false`);
otherwise an exception propagates. The `Bool` is "the file exists". -/
def unlink : UnlinkOutcome → Except String Bool
  | UnlinkOutcome.success => Except.ok false
  | UnlinkOutcome.failure => Except.error "unlink failed"

/-- Body of `cleanup_file` before its `except` clause:
`if path.exists(): path.unlink()`. -/
def cleanup_body (o : UnlinkOutcome) (present : Bool) : Except String Bool :=
  if present then unlink o else Except.ok present

/-- Function `cleanup_file(path)`: the `try/except` swallows any deletion failure
(it is only logged), so the caller always gets a state back, never an
exception. -/
def cleanup_file (o : UnlinkOutcome) (present : Bool) : Except String Bool :=
  match cleanup_body o present with
  | Except.ok s => Except.ok s
  | Except.error _ => Except.ok present

/- ---------- Pipeline run (run_pipeline_and_write, main.py) ---------- -/

/-- An intermediate item yielded by the engine generator: a tuple of fields,
expected shape `(gs, ps, audio)`. Fields are abstracted as `Nat`; only the
third (the audio buffer) is ever used. -/
abbrev Item := List Nat

inductive PipeError
  | initError        -- RuntimeError from KPipeline construction
  | noAudioProduced  -- "Aucune sortie audio produite par le modele."
  | unpackError      -- ValueError unpacking an item with more than 3 fields
  | writeError       -- exception from write_wav_file / soundfile
deriving DecidableEq, Repr

/-- State of the request's output file `out_path` on disk. -/
inductive FileState
  | absent
  | residual         -- partially written file left by a failed write
  | written (audio : Nat)
deriving DecidableEq, Repr

/-- The `for i, item in enumerate(gen)` loop: items with fewer than three
fields (including empty/falsy ones, `if not item or len(item) < 3: continue`)
are skipped; a three-field item is unpacked and its audio overwrites
`last_audio`; an item with more than three fields makes the unpacking raise. -/
def scanItems : List Item → Option Nat → Except PipeError (Option Nat)
  | [], last => Except.ok last
  | item :: rest, last =>
    if item.length < 3 then scanItems rest last
    else if h : item.length = 3 then
      scanItems rest (some (item.get ⟨2, by omega⟩))
    else Except.error PipeError.unpackError

/-- Spec-side description of the loop's selection: among the valid
(three-field) items of the sequence, the most recently produced one's audio
buffer ("the adapter ... retains only the most recently produced audio buffer
as the final output"). -/
def lastValidAudio (items : List Item) : Option Nat :=
  ((items.filter fun it => it.length == 3).getLast?).bind fun it => it[2]?

/-- Engine behaviour for one request: whether `KPipeline(lang_code=lang)`
construction succeeds, the sequence the generator yields, and whether the
final `sf.write` succeeds. -/
structure PipelineEnv where
  initOk : Bool
  items : List Item
  writeOk : Bool
deriving DecidableEq, Repr

/-- The second `try` block of `run_pipeline_and_write`: iterate the generator,
fail with `noAudioProduced` if no valid item produced audio, otherwise write
the last audio buffer to `out_path`. Returns the result together with the
resulting state of `out_path` (a failed write leaves a residual file). -/
def pipeline_body (env : PipelineEnv) (ts : Nat) (st0 : FileState) :
    Except PipeError String × FileState :=
  match scanItems env.items none with
  | Except.error e => (Except.error e, st0)
  | Except.ok none => (Except.error PipeError.noAudioProduced, st0)
  | Except.ok (some audio) =>
    if env.writeOk then (Except.ok (safe_filename ts), FileState.written audio)
    else (Except.error PipeError.writeError, FileState.residual)

/-- Coroutine `run_pipeline_and_write()`: KPipeline construction failure raises before
the inner `try` (so no cleanup is attempted there); any exception from the
inner `try` triggers `if out_path.exists(): out_path.unlink()` (the unlink is
modelled as succeeding) before re-raising. On success the function returns
`out_path.name = safe_filename ts`. -/
def run_pipeline_and_write (env : PipelineEnv) (ts : Nat) (st0 : FileState) :
    Except PipeError String × FileState :=
  if env.initOk then
    match pipeline_body env ts st0 with
    | (Except.ok f, st) => (Except.ok f, st)
    | (Except.error e, _) => (Except.error e, FileState.absent)
  else (Except.error PipeError.initError, st0)

/- ---------- Request / response models (pydantic, main.py) ---------- -/

structure TTSRequest where
  text : String
  voice : Option String := none
  lang : Option String := some DEFAULT_LANG
  speed : Float := 1.0

structure ResponseData where
  filename : String
  download_url : String
deriving DecidableEq, Repr

structure APIResponse where
  success : Bool
  message : String
  data : Option ResponseData := none
deriving DecidableEq, Repr

/-- The structured HTTP error outcomes (`HTTPException`) of the handler. -/
inductive HTTPError
  | invalidInput       -- 422
  | payloadTooLarge    -- 413
  | serviceUnavailable -- 503
  | gatewayTimeout     -- 504
  | internalError      -- 500
deriving DecidableEq, Repr

def statusCode : HTTPError → Nat
  | HTTPError.invalidInput => 422
  | HTTPError.payloadTooLarge => 413
  | HTTPError.serviceUnavailable => 503
  | HTTPError.gatewayTimeout => 504
  | HTTPError.internalError => 500

instance {ε α : Type} [DecidableEq ε] [DecidableEq α] : DecidableEq (Except ε α) := by
  intro a b
  cases a <;> cases b
  case error.error x y =>
    exact if h : x = y then isTrue (by rw [h]) else isFalse (by intro hc; cases hc; exact h rfl)
  case error.ok x y => exact isFalse (by intro hc; cases hc)
  case ok.error x y => exact isFalse (by intro hc; cases hc)
  case ok.ok x y =>
    exact if h : x = y then isTrue (by rw [h]) else isFalse (by intro hc; cases hc; exact h rfl)

/- ---------- Execution step of the handler (main.py, step 4) ---------- -/

/-- The two arms of the conditional expression inside the lambda at the first
invocation attempt:
`lambda: asyncio.run(run_pipeline_and_write()) if False else asyncio.get_event_loop()`. -/
inductive FirstAttemptThunk
  | runPipelineInNewLoop   -- asyncio.run(run_pipeline_and_write())
  | getEventLoop           -- asyncio.get_event_loop()
deriving DecidableEq, Repr

/-- The arm the lambda actually evaluates: the Python conditional expression
`A if False else B` always selects `B`. -/
def firstAttemptThunk : FirstAttemptThunk :=
  if false then FirstAttemptThunk.runPipelineInNewLoop
  else FirstAttemptThunk.getEventLoop

/-- Outcome of one awaited execution attempt. -/
inductive AttemptResult
  | value (filename : String)  -- the await produced a filename
  | timedOut                   -- asyncio.TimeoutError from wait_for
  | exn                        -- any other exception
deriving DecidableEq, Repr

/-- Await of `asyncio.wait_for(asyncio.to_thread(thunk), PIPELINE_TIMEOUT)`,
paired with how many times the thunk invokes `run_pipeline_and_write`.
For the `runPipelineInNewLoop` arm this is a timeout-bounded pipeline run.
For the `getEventLoop` arm, `asyncio.get_event_loop()` runs in a `to_thread`
worker — a non-main thread with no event loop set — so it raises
`RuntimeError` immediately: no filename, no timeout, and the pipeline is
never invoked (0 invocations). -/
def awaitThunk (env : PipelineEnv) (ts duration : Nat) :
    FirstAttemptThunk → AttemptResult × Nat
  | FirstAttemptThunk.runPipelineInNewLoop =>
    (if PIPELINE_TIMEOUT < duration then AttemptResult.timedOut
     else
       match (run_pipeline_and_write env ts FileState.absent).1 with
       | Except.ok f => AttemptResult.value f
       | Except.error _ => AttemptResult.exn, 1)
  | FirstAttemptThunk.getEventLoop => (AttemptResult.exn, 0)

/-- The first invocation attempt (main.py line with `asyncio.wait_for`). -/
def firstAttempt (env : PipelineEnv) (ts duration : Nat) : AttemptResult × Nat :=
  awaitThunk env ts duration firstAttemptThunk

/-- The retry: `await asyncio.to_thread(sync_wrapper)` where `sync_wrapper`
runs `run_pipeline_and_write` to completion in a fresh event loop. No
`asyncio.wait_for` wraps this await, so `duration` plays no role. -/
def retryAttempt (env : PipelineEnv) (ts : Nat) : Except PipeError String × FileState :=
  run_pipeline_and_write env ts FileState.absent

/-- The `200` response body built at the end of `synthesize_tts`. -/
def successResponse (filename : String) : APIResponse :=
  { success := true
    message := "Audio généré avec succès."
    data := some { filename := filename, download_url := "/download/" ++ filename } }

/-- Outcome of the whole handler, with the number of times
`run_pipeline_and_write` was actually invoked for the request. -/
structure HandlerResult where
  response : Except HTTPError APIResponse
  pipelineInvocations : Nat
deriving DecidableEq, Repr

/-- Process-wide facts the handler sees: whether the `kokoro` import produced
a usable `KPipeline` (engine availability), the engine behaviour for this
request, and `ts = int(time.time() * 1000)` (millisecond epoch timestamp)
sampled when the request reaches step 3. -/
structure HandlerEnv where
  kpipelineAvailable : Bool
  pipelineEnv : PipelineEnv
  ts : Nat
deriving DecidableEq, Repr

/-- Endpoint handler `synthesize_tts` for `POST /tts` (main.py):
1. strip the text; empty → 422; longer than `MAX_TEXT_LENGTH` → 413;
2. default `voice` and `lang`;
3. engine unavailable (`KPipeline is None`) → 503;
4. first attempt under `asyncio.wait_for`; on `TimeoutError` → 504; on any
   other exception, one retry via `sync_wrapper` in a fresh event loop
   (the retry's own `except TimeoutError` arm is dead: nothing applies a
   timeout to it); retry failure → 500;
5. on success, build the response from the returned filename. -/
def synthesize_tts (env : HandlerEnv) (duration : Nat) (payload : TTSRequest) :
    HandlerResult :=
  let text := pyStrip payload.text
  if text = "" then
    { response := Except.error HTTPError.invalidInput, pipelineInvocations := 0 }
  else if MAX_TEXT_LENGTH < text.length then
    { response := Except.error HTTPError.payloadTooLarge, pipelineInvocations := 0 }
  else
    let _voice := pyOr payload.voice DEFAULT_VOICE
    let _lang := pyOr payload.lang DEFAULT_LANG
    if env.kpipelineAvailable = false then
      { response := Except.error HTTPError.serviceUnavailable, pipelineInvocations := 0 }
    else
      match firstAttempt env.pipelineEnv env.ts duration with
      | (AttemptResult.value f, n) =>
        { response := Except.ok (successResponse f), pipelineInvocations := n }
      | (AttemptResult.timedOut, n) =>
        { response := Except.error HTTPError.gatewayTimeout, pipelineInvocations := n }
      | (AttemptResult.exn, n) =>
        match retryAttempt env.pipelineEnv env.ts with
        | (Except.ok f, _) =>
          { response := Except.ok (successResponse f), pipelineInvocations := n + 1 }
        | (Except.error _, _) =>
          { response := Except.error HTTPError.internalError, pipelineInvocations := n + 1 }

/- ---------- General lemmas ---------- -/

lemma firstAttempt_exn (env : PipelineEnv) (ts duration : Nat) :
    firstAttempt env ts duration = (AttemptResult.exn, 0) := rfl

lemma digitChar_isDigit : ∀ d < 10, (digitChar d).isDigit = true := by decide

lemma decimalDigitsAux_isDigit (fuel : Nat) :
    ∀ n c, c ∈ decimalDigitsAux fuel n → c.isDigit = true := by
  induction fuel with
  | zero => intro n c hc; simp [decimalDigitsAux] at hc
  | succ fuel ih =>
    intro n c hc
    rw [decimalDigitsAux] at hc
    split at hc
    · next h =>
      simp only [List.mem_singleton] at hc
      subst hc
      exact digitChar_isDigit n h
    · next h =>
      rcases List.mem_append.mp hc with h1 | h2
      · exact ih _ c h1
      · simp only [List.mem_singleton] at h2
        subst h2
        exact digitChar_isDigit (n % 10) (Nat.mod_lt _ (by omega))

lemma decimalDigits_isDigit (n : Nat) : ∀ c ∈ decimalDigits n, c.isDigit = true :=
  fun c hc => decimalDigitsAux_isDigit (n + 1) n c hc

lemma getLast?_cons_or {α : Type} (a : α) (l : List α) :
    (a :: l).getLast? = l.getLast?.or (some a) := by
  induction l generalizing a with
  | nil => rfl
  | cons b t ih =>
    rw [List.getLast?_cons_cons, ih b]
    cases t.getLast? <;> rfl

lemma or_some_or {α : Type} (x : Option α) (a : α) (y : Option α) :
    (x.or (some a)).or y = x.or (some a) := by
  cases x <;> rfl

lemma pipeline_body_ok (env : PipelineEnv) (ts : Nat) (st : FileState) (f : String)
    (st2 : FileState) (h : pipeline_body env ts st = (Except.ok f, st2)) :
    f = safe_filename ts := by
  unfold pipeline_body at h
  rcases hscan : scanItems env.items none with e | o <;> rw [hscan] at h
  · simp at h
  · cases o with
    | none => simp at h
    | some audio =>
      by_cases hw : env.writeOk <;> simp [hw] at h
      exact h.1.symm

lemma run_ok_filename (env : PipelineEnv) (ts : Nat) (st : FileState) (f : String)
    (h : (run_pipeline_and_write env ts st).1 = Except.ok f) : f = safe_filename ts := by
  unfold run_pipeline_and_write at h
  by_cases hi : env.initOk
  · rw [if_pos hi] at h
    rcases hpb : pipeline_body env ts st with ⟨r, st2⟩
    rw [hpb] at h
    cases r with
    | error e => simp at h
    | ok g =>
      simp only at h
      cases h
      exact pipeline_body_ok env ts st _ st2 hpb
  · rw [if_neg hi] at h
    simp at h

lemma lastValidAudio_nil : lastValidAudio [] = none := rfl

lemma lastValidAudio_cons_invalid (it : Item) (rest : List Item) (h : it.length ≠ 3) :
    lastValidAudio (it :: rest) = lastValidAudio rest := by
  unfold lastValidAudio
  rw [List.filter_cons, if_neg (by simp [h])]

lemma lastValidAudio_cons_valid (it : Item) (rest : List Item) (h : it.length = 3) :
    lastValidAudio (it :: rest) = (lastValidAudio rest).or (it[2]?) := by
  unfold lastValidAudio
  rw [List.filter_cons, if_pos (by simp [h]), getLast?_cons_or]
  cases hgl : (rest.filter fun it => it.length == 3).getLast? with
  | none => rfl
  | some j =>
    have hj : j ∈ rest.filter fun it => it.length == 3 := List.mem_of_mem_getLast? hgl
    have hlen : j.length = 3 := by simpa using (List.mem_filter.mp hj).2
    show j[2]? = (j[2]?).or (it[2]?)
    rw [List.getElem?_eq_getElem (show 2 < j.length by omega)]
    rfl

/-- The loop's accumulator semantics: on a sequence whose items all have at
most three fields, the iteration never aborts and ends with the most recently
produced audio of a valid item (or the starting accumulator if none). -/
lemma scanItems_eq (items : List Item) :
    ∀ acc : Option Nat, (∀ it ∈ items, it.length ≤ 3) →
      scanItems items acc = Except.ok ((lastValidAudio items).or acc) := by
  induction items with
  | nil => intro acc _; simp [scanItems, lastValidAudio_nil, Option.none_or]
  | cons it rest ih =>
    intro acc h
    have hit : it.length ≤ 3 := h it (List.mem_cons_self it rest)
    have hrest : ∀ x ∈ rest, x.length ≤ 3 := fun x hx => h x (List.mem_cons_of_mem _ hx)
    by_cases hlt : it.length < 3
    · rw [scanItems, if_pos hlt, ih acc hrest,
        lastValidAudio_cons_invalid it rest (by omega)]
    · have heq : it.length = 3 := by omega
      rw [scanItems, if_neg hlt, dif_pos heq, ih _ hrest,
        lastValidAudio_cons_valid it rest heq,
        List.getElem?_eq_getElem (by omega : 2 < it.length)]
      rw [or_some_or]
      rfl

lemma lastValidAudio_all_invalid (items : List Item)
    (h : ∀ it ∈ items, it.length < 3) : lastValidAudio items = none := by
  induction items with
  | nil => rfl
  | cons it rest ih =>
    rw [lastValidAudio_cons_invalid it rest
      (by have := h it (List.mem_cons_self it rest); omega)]
    exact ih fun x hx => h x (List.mem_cons_of_mem _ hx)

/- ---------- Handler branch lemmas ---------- -/

lemma synthesize_tts_invalid (env : HandlerEnv) (duration : Nat) (payload : TTSRequest)
    (h : pyStrip payload.text = "") :
    synthesize_tts env duration payload =
      { response := Except.error HTTPError.invalidInput, pipelineInvocations := 0 } := by
  simp only [synthesize_tts]
  rw [if_pos h]

lemma synthesize_tts_too_long (env : HandlerEnv) (duration : Nat) (payload : TTSRequest)
    (h1 : pyStrip payload.text ≠ "")
    (h2 : MAX_TEXT_LENGTH < (pyStrip payload.text).length) :
    synthesize_tts env duration payload =
      { response := Except.error HTTPError.payloadTooLarge, pipelineInvocations := 0 } := by
  simp only [synthesize_tts]
  rw [if_neg h1, if_pos h2]

lemma synthesize_tts_unavailable (env : HandlerEnv) (duration : Nat) (payload : TTSRequest)
    (hu : env.kpipelineAvailable = false)
    (h1 : pyStrip payload.text ≠ "")
    (h2 : (pyStrip payload.text).length ≤ MAX_TEXT_LENGTH) :
    synthesize_tts env duration payload =
      { response := Except.error HTTPError.serviceUnavailable, pipelineInvocations := 0 } := by
  simp only [synthesize_tts]
  rw [if_neg h1, if_neg (Nat.not_lt.mpr h2), if_pos hu]

/-- Past validation and the availability check, the whole outcome of the
handler is decided by the single unbounded retry: the timeout-bounded first
attempt always raises a non-timeout exception without invoking the pipeline,
and `duration` (how long the pipeline actually runs) never matters. -/
lemma synthesize_tts_exec (env : HandlerEnv) (duration : Nat) (payload : TTSRequest)
    (h1 : pyStrip payload.text ≠ "")
    (h2 : (pyStrip payload.text).length ≤ MAX_TEXT_LENGTH)
    (h3 : env.kpipelineAvailable = true) :
    synthesize_tts env duration payload =
      match retryAttempt env.pipelineEnv env.ts with
      | (Except.ok f, _) =>
        { response := Except.ok (successResponse f), pipelineInvocations := 1 }
      | (Except.error _, _) =>
        { response := Except.error HTTPError.internalError, pipelineInvocations := 1 } := by
  simp only [synthesize_tts]
  rw [if_neg h1, if_neg (Nat.not_lt.mpr h2), if_neg (by simp [h3]), firstAttempt_exn]

/-- Any `200` response of the handler comes from the retry, carries the
timestamp-derived filename, and corresponds to exactly one pipeline
invocation. -/
lemma response_ok_cases (env : HandlerEnv) (duration : Nat) (payload : TTSRequest)
    (resp : APIResponse)
    (h : (synthesize_tts env duration payload).response = Except.ok resp) :
    resp = successResponse (safe_filename env.ts) ∧
    (retryAttempt env.pipelineEnv env.ts).1 = Except.ok (safe_filename env.ts) ∧
    (synthesize_tts env duration payload).pipelineInvocations = 1 := by
  by_cases h1 : pyStrip payload.text = ""
  · rw [synthesize_tts_invalid env duration payload h1] at h; cases h
  by_cases h2 : MAX_TEXT_LENGTH < (pyStrip payload.text).length
  · rw [synthesize_tts_too_long env duration payload h1 h2] at h; cases h
  have h2' := Nat.le_of_not_lt h2
  by_cases h3 : env.kpipelineAvailable = true
  case neg =>
    rw [synthesize_tts_unavailable env duration payload
      (Bool.eq_false_iff.mpr h3) h1 h2'] at h
    cases h
  rw [synthesize_tts_exec env duration payload h1 h2' h3] at h ⊢
  rcases hr : retryAttempt env.pipelineEnv env.ts with ⟨r, st⟩
  rw [hr] at h
  cases r with
  | error e => cases h
  | ok f =>
    have hf : f = safe_filename env.ts := by
      apply run_ok_filename env.pipelineEnv env.ts FileState.absent
      show (retryAttempt env.pipelineEnv env.ts).1 = Except.ok f
      rw [hr]
    subst hf
    change Except.ok (successResponse (safe_filename env.ts)) = Except.ok resp at h
    injection h with h4
    exact ⟨h4.symm, rfl, rfl⟩

/- ---------- pyStrip on long replicate-built texts ---------- -/

lemma pyStrip_mk (l : List Char) :
    pyStrip (String.mk l) =
      String.mk (((l.dropWhile isPySpace).reverse.dropWhile isPySpace).reverse) := rfl

lemma length_mk (l : List Char) : (String.mk l).length = l.length := rfl

lemma mk_replicate_ne_empty (n : Nat) (c : Char) :
    String.mk (List.replicate (n + 1) c) ≠ "" := by
  intro hc
  have h := congrArg String.length hc
  rw [length_mk, List.length_replicate] at h
  have h0 : ("" : String).length = 0 := rfl
  omega

lemma dropWhile_replicate_a (n : Nat) (l : List Char) :
    List.dropWhile isPySpace (List.replicate (n + 1) 'a' ++ l) =
      List.replicate (n + 1) 'a' ++ l := by
  rw [List.replicate_succ, List.cons_append, List.dropWhile_cons, if_neg (by decide)]

lemma pyStrip_replicate_a (n : Nat) :
    pyStrip (String.mk (List.replicate (n + 1) 'a')) =
      String.mk (List.replicate (n + 1) 'a') := by
  have h1 : List.dropWhile isPySpace (List.replicate (n + 1) 'a') =
      List.replicate (n + 1) 'a' := by
    have := dropWhile_replicate_a n []
    simpa using this
  rw [pyStrip_mk, h1, List.reverse_replicate, h1, List.reverse_replicate]

lemma pyStrip_replicate_a_space (n : Nat) :
    pyStrip (String.mk (List.replicate (n + 1) 'a' ++ [' '])) =
      String.mk (List.replicate (n + 1) 'a') := by
  have h1 : List.dropWhile isPySpace (List.replicate (n + 1) 'a') =
      List.replicate (n + 1) 'a' := by
    have := dropWhile_replicate_a n []
    simpa using this
  have h2 : (List.replicate (n + 1) 'a' ++ [' ']).reverse =
      ' ' :: List.replicate (n + 1) 'a' := by
    rw [List.reverse_append, List.reverse_replicate]
    rfl
  have h3 : List.dropWhile isPySpace (' ' :: List.replicate (n + 1) 'a') =
      List.replicate (n + 1) 'a' := by
    rw [List.dropWhile_cons, if_pos (by decide), h1]
  rw [pyStrip_mk, dropWhile_replicate_a, h2, h3, List.reverse_replicate]

/- ---------- Claim theorems ---------- -/

/-- C5: if the synthesis engine failed to load at process start
(`KPipeline is None`), every well-formed request — one passing validation:
stripped text non-empty and within the length limit — yields
`ServiceUnavailable` (HTTP 503) and no synthesis is attempted
(zero pipeline invocations, for every engine behaviour `env.pipelineEnv`). -/
theorem C5_unavailable_means_503 (env : HandlerEnv) (duration : Nat)
    (payload : TTSRequest)
    (hu : env.kpipelineAvailable = false)
    (h1 : pyStrip payload.text ≠ "")
    (h2 : (pyStrip payload.text).length ≤ MAX_TEXT_LENGTH) :
    synthesize_tts env duration payload =
      { response := Except.error HTTPError.serviceUnavailable,
        pipelineInvocations := 0 } :=
  synthesize_tts_unavailable env duration payload hu h1 h2

theorem C5_witness :
    synthesize_tts ⟨false, ⟨true, [[1, 2, 3]], true⟩, 5⟩ 0 { text := "hello" } =
      { response := Except.error HTTPError.serviceUnavailable,
        pipelineInvocations := 0 } :=
  C5_unavailable_means_503 ⟨false, ⟨true, [[1, 2, 3]], true⟩, 5⟩ 0 { text := "hello" }
    rfl (by decide) (by decide)

/-- C6: on a sequence of engine items that all have at most the three expected
fields, the adapter iterates the entire sequence without aborting (the scan
returns `ok`), skipping the malformed (fewer-than-three-field) items, and the
value it retains is the most recently produced audio buffer among the valid
items; when a buffer exists and the write succeeds, exactly that buffer is the
final output written to the file. -/
theorem C6_last_buffer_written (env : PipelineEnv) (ts : Nat)
    (hinit : env.initOk = true)
    (hlen : ∀ it ∈ env.items, it.length ≤ 3) :
    scanItems env.items none = Except.ok (lastValidAudio env.items) ∧
    (∀ a, lastValidAudio env.items = some a → env.writeOk = true →
      run_pipeline_and_write env ts FileState.absent =
        (Except.ok (safe_filename ts), FileState.written a)) := by
  have hscan : scanItems env.items none = Except.ok (lastValidAudio env.items) := by
    rw [scanItems_eq env.items none hlen, Option.or_none]
  refine ⟨hscan, fun a ha hw => ?_⟩
  unfold run_pipeline_and_write pipeline_body
  rw [if_pos hinit, hscan, ha, hw]
  rfl

theorem C6_witness :
    scanItems [[9, 9, 7], [1], [], [9, 9, 42]] none = Except.ok (some 42) ∧
    run_pipeline_and_write ⟨true, [[9, 9, 7], [1], [], [9, 9, 42]], true⟩ 8
        FileState.absent = (Except.ok (safe_filename 8), FileState.written 42) := by
  have h := C6_last_buffer_written ⟨true, [[9, 9, 7], [1], [], [9, 9, 42]], true⟩ 8
    rfl (by decide)
  exact ⟨by rw [h.1]; rfl, h.2 42 (by decide) rfl⟩

/-- C7: if the engine sequence completes with zero valid audio buffers (every
item is malformed, i.e. has fewer than three fields), the synthesis call fails
with `NoAudioProduced` and no artifact file is left on disk. -/
theorem C7_no_audio_no_artifact (env : PipelineEnv) (ts : Nat)
    (hinit : env.initOk = true)
    (hmal : ∀ it ∈ env.items, it.length < 3) :
    run_pipeline_and_write env ts FileState.absent =
      (Except.error PipeError.noAudioProduced, FileState.absent) := by
  have hscan : scanItems env.items none = Except.ok none := by
    rw [scanItems_eq env.items none (fun it hit => Nat.le_of_lt (hmal it hit)),
      lastValidAudio_all_invalid env.items hmal]
    rfl
  unfold run_pipeline_and_write pipeline_body
  rw [if_pos hinit, hscan]

theorem C7_witness :
    run_pipeline_and_write ⟨true, [[1], [], [5, 6]], true⟩ 12 FileState.absent =
      (Except.error PipeError.noAudioProduced, FileState.absent) :=
  C7_no_audio_no_artifact ⟨true, [[1], [], [5, 6]], true⟩ 12 rfl (by decide)

/-- C8: whenever the pipeline run fails during sequence iteration or file
writing (any failure after engine construction succeeded), the partially
written artifact is deleted before the failure propagates: the file state
after the run is `absent`, whatever it was left as mid-run. -/
theorem C8_no_residual_artifact (env : PipelineEnv) (ts : Nat) (st0 : FileState)
    (e : PipeError) (hinit : env.initOk = true)
    (h : (run_pipeline_and_write env ts st0).1 = Except.error e) :
    (run_pipeline_and_write env ts st0).2 = FileState.absent := by
  unfold run_pipeline_and_write at h ⊢
  rw [if_pos hinit] at h ⊢
  rcases hpb : pipeline_body env ts st0 with ⟨r, st⟩
  rw [hpb] at h
  cases r with
  | ok f => cases h
  | error e2 => rfl

theorem C8_witness :
    (run_pipeline_and_write ⟨true, [[4, 4, 4]], false⟩ 11 FileState.absent).1 =
      Except.error PipeError.writeError ∧
    (run_pipeline_and_write ⟨true, [[4, 4, 4]], false⟩ 11 FileState.absent).2 =
      FileState.absent :=
  ⟨by decide,
    C8_no_residual_artifact ⟨true, [[4, 4, 4]], false⟩ 11 FileState.absent
      PipeError.writeError rfl (by decide)⟩

/-- C10: immediate artifact deletion is idempotent and total: deleting a
never-created or already-deleted file is a no-op; `cleanup_file` always
returns to its caller (never propagates a failure, whatever the unlink
outcome); and deleting twice has the same effect as deleting once. -/
theorem C10_cleanup_idempotent :
    (∀ o, cleanup_file o false = Except.ok false) ∧
    (∀ o present, ∃ s, cleanup_file o present = Except.ok s) ∧
    (∀ o present s, cleanup_file o present = Except.ok s →
      cleanup_file o s = Except.ok s) := by
  refine ⟨fun o => rfl, fun o present => ?_, fun o present s h => ?_⟩
  · cases o <;> cases present <;> exact ⟨_, rfl⟩
  · cases o <;> cases present <;> (injection h with h2; subst h2; rfl)

theorem C10_witness :
    cleanup_file UnlinkOutcome.success false = Except.ok false :=
  C10_cleanup_idempotent.2.2 UnlinkOutcome.success true false (by decide)

/-- C1 (code-bug evidence): a request whose synthesis takes 120 seconds —
twice the configured 60-second timeout — and succeeds is answered with a 200
success response, not `GatewayTimeout`: the `asyncio.wait_for`-bounded first
attempt never runs the pipeline (its lambda evaluates
`asyncio.get_event_loop()`), and the retry that actually runs the pipeline is
not bounded by any timeout. -/
theorem C1_timeout_not_enforced :
    PIPELINE_TIMEOUT < 120 ∧
    (synthesize_tts ⟨true, ⟨true, [[1, 2, 5]], true⟩, 99⟩ 120
        { text := "Hello world" }).response =
      Except.ok (successResponse (safe_filename 99)) ∧
    (synthesize_tts ⟨true, ⟨true, [[1, 2, 5]], true⟩, 99⟩ 120
        { text := "Hello world" }).response ≠
      Except.error HTTPError.gatewayTimeout := by
  refine ⟨by norm_num [PIPELINE_TIMEOUT], by decide, by decide⟩

/-- C2: the conditional in the first attempt's lambda selects
`asyncio.get_event_loop()`; the timeout-bounded first attempt therefore always
raises a non-timeout exception with zero pipeline invocations, the handler's
outcome is independent of how long synthesis actually takes (no timeout is in
effect anywhere), and every successful response is produced by the retry
branch — one pipeline invocation, made by the unbounded retry. -/
theorem C2_first_attempt_never_runs_pipeline :
    firstAttemptThunk = FirstAttemptThunk.getEventLoop ∧
    (∀ env ts duration, firstAttempt env ts duration = (AttemptResult.exn, 0)) ∧
    (∀ env duration duration2 payload,
      synthesize_tts env duration payload = synthesize_tts env duration2 payload) ∧
    (∀ env duration payload resp,
      (synthesize_tts env duration payload).response = Except.ok resp →
      (retryAttempt env.pipelineEnv env.ts).1 = Except.ok (safe_filename env.ts) ∧
      resp = successResponse (safe_filename env.ts) ∧
      (synthesize_tts env duration payload).pipelineInvocations = 1) := by
  refine ⟨rfl, firstAttempt_exn, fun env d d2 p => ?_, fun env d p resp h => ?_⟩
  · by_cases h1 : pyStrip p.text = ""
    · rw [synthesize_tts_invalid env d p h1, synthesize_tts_invalid env d2 p h1]
    by_cases h2 : MAX_TEXT_LENGTH < (pyStrip p.text).length
    · rw [synthesize_tts_too_long env d p h1 h2, synthesize_tts_too_long env d2 p h1 h2]
    by_cases h3 : env.kpipelineAvailable = true
    · rw [synthesize_tts_exec env d p h1 (Nat.le_of_not_lt h2) h3,
        synthesize_tts_exec env d2 p h1 (Nat.le_of_not_lt h2) h3]
    · rw [synthesize_tts_unavailable env d p (Bool.eq_false_iff.mpr h3) h1
          (Nat.le_of_not_lt h2),
        synthesize_tts_unavailable env d2 p (Bool.eq_false_iff.mpr h3) h1
          (Nat.le_of_not_lt h2)]
  · obtain ⟨ha, hb, hc⟩ := response_ok_cases env d p resp h
    exact ⟨hb, ha, hc⟩

theorem C2_witness :
    (retryAttempt ⟨true, [[5, 6, 8]], true⟩ 7).1 = Except.ok (safe_filename 7) ∧
    (synthesize_tts ⟨true, ⟨true, [[5, 6, 8]], true⟩, 7⟩ 55
        { text := "ok" }).pipelineInvocations = 1 := by
  have h := C2_first_attempt_never_runs_pipeline.2.2.2
    ⟨true, ⟨true, [[5, 6, 8]], true⟩, 7⟩ 55 { text := "ok" }
    (successResponse (safe_filename 7)) (by decide)
  exact ⟨h.1, h.2.2⟩

/-- C3 (counterexample to "still bounded by the same timeout discipline"):
the first attempt fails with a non-timeout exception, the retry then runs a
pipeline taking 600 seconds — ten times the timeout — and the request still
succeeds instead of yielding `GatewayTimeout`. -/
theorem C3_counterexample :
    firstAttempt ⟨true, [[0, 0, 7]], true⟩ 42 600 = (AttemptResult.exn, 0) ∧
    PIPELINE_TIMEOUT < 600 ∧
    (synthesize_tts ⟨true, ⟨true, [[0, 0, 7]], true⟩, 42⟩ 600
        { text := "bonjour" }).response =
      Except.ok (successResponse (safe_filename 42)) := by
  refine ⟨rfl, by norm_num [PIPELINE_TIMEOUT], by decide⟩

/-- C3 (amended): when the first invocation attempt fails for a non-timeout
reason (which it always does), the handler performs exactly one retry using an
alternate execution strategy (a fresh event loop in a worker thread), with no
timeout bound applied to the retry; the retry alone decides the outcome — its
failure surfaces `InternalError` with no further retries, and in either case
exactly one pipeline invocation happens. -/
theorem C3_one_unbounded_retry (env : HandlerEnv) (duration : Nat)
    (payload : TTSRequest)
    (h1 : pyStrip payload.text ≠ "")
    (h2 : (pyStrip payload.text).length ≤ MAX_TEXT_LENGTH)
    (h3 : env.kpipelineAvailable = true) :
    (firstAttempt env.pipelineEnv env.ts duration).1 = AttemptResult.exn ∧
    synthesize_tts env duration payload =
      match retryAttempt env.pipelineEnv env.ts with
      | (Except.ok f, _) =>
        { response := Except.ok (successResponse f), pipelineInvocations := 1 }
      | (Except.error _, _) =>
        { response := Except.error HTTPError.internalError, pipelineInvocations := 1 } :=
  ⟨by rw [firstAttempt_exn], synthesize_tts_exec env duration payload h1 h2 h3⟩

theorem C3_witness :
    synthesize_tts ⟨true, ⟨false, [], true⟩, 3⟩ 0 { text := "salut" } =
      { response := Except.error HTTPError.internalError,
        pipelineInvocations := 1 } := by
  have h := C3_one_unbounded_retry ⟨true, ⟨false, [], true⟩, 3⟩ 0 { text := "salut" }
    (by decide) (by decide) rfl
  rw [h.2]
  decide

/-- C4 (counterexample): a 3001-character text — 3000 letters followed by one
space — is strictly longer than `MAX_TEXT_LENGTH = 3000`, yet it is not
rejected with `PayloadTooLarge`: the handler measures the length of the
stripped text, which is 3000 here, so the request proceeds past validation. -/
theorem C4_counterexample :
    (String.mk (List.replicate 3000 'a' ++ [' '])).length = 3001 ∧
    MAX_TEXT_LENGTH < 3001 ∧
    (synthesize_tts ⟨false, ⟨true, [], true⟩, 0⟩ 0
        { text := String.mk (List.replicate 3000 'a' ++ [' ']) }).response ≠
      Except.error HTTPError.payloadTooLarge := by
  have h3000 : (2999 : Nat) + 1 = 3000 := by norm_num
  have hstrip : pyStrip (String.mk (List.replicate 3000 'a' ++ [' '])) =
      String.mk (List.replicate 3000 'a') := by
    have h := pyStrip_replicate_a_space 2999
    rw [h3000] at h
    exact h
  refine ⟨?_, by norm_num [MAX_TEXT_LENGTH], ?_⟩
  · rw [length_mk, List.length_append, List.length_replicate]
    norm_num
  · have hne : pyStrip (String.mk (List.replicate 3000 'a' ++ [' '])) ≠ "" := by
      rw [hstrip]
      have h := mk_replicate_ne_empty 2999 'a'
      rw [h3000] at h
      exact h
    have hlen : (pyStrip (String.mk (List.replicate 3000 'a' ++ [' ']))).length ≤
        MAX_TEXT_LENGTH := by
      rw [hstrip, length_mk, List.length_replicate]
      norm_num [MAX_TEXT_LENGTH]
    rw [synthesize_tts_unavailable ⟨false, ⟨true, [], true⟩, 0⟩ 0
      { text := String.mk (List.replicate 3000 'a' ++ [' ']) } rfl hne hlen]
    decide

/-- C4 (amended): empty or whitespace-only text is rejected with
`InvalidInput` before any other check, and text whose whitespace-stripped form
exceeds `MAX_TEXT_LENGTH` is rejected with `PayloadTooLarge`; both rejections
hold for every engine state (so they precede the availability check) and
perform no engine work (zero pipeline invocations). -/
theorem C4_validation_order :
    (∀ env duration payload, pyStrip payload.text = "" →
      synthesize_tts env duration payload =
        { response := Except.error HTTPError.invalidInput,
          pipelineInvocations := 0 }) ∧
    (∀ env duration payload, pyStrip payload.text ≠ "" →
      MAX_TEXT_LENGTH < (pyStrip payload.text).length →
      synthesize_tts env duration payload =
        { response := Except.error HTTPError.payloadTooLarge,
          pipelineInvocations := 0 }) :=
  ⟨synthesize_tts_invalid, synthesize_tts_too_long⟩

theorem C4_witness :
    synthesize_tts ⟨true, ⟨true, [[1, 2, 3]], true⟩, 2⟩ 0 { text := "   " } =
      { response := Except.error HTTPError.invalidInput,
        pipelineInvocations := 0 } ∧
    synthesize_tts ⟨true, ⟨true, [[1, 2, 3]], true⟩, 2⟩ 0
        { text := String.mk (List.replicate 3001 'a') } =
      { response := Except.error HTTPError.payloadTooLarge,
        pipelineInvocations := 0 } := by
  have h3001 : (3000 : Nat) + 1 = 3001 := by norm_num
  have hstrip : pyStrip (String.mk (List.replicate 3001 'a')) =
      String.mk (List.replicate 3001 'a') := by
    have h := pyStrip_replicate_a 3000
    rw [h3001] at h
    exact h
  constructor
  · exact C4_validation_order.1 _ 0 _ (by decide)
  · refine C4_validation_order.2 _ 0 _ ?_ ?_
    · rw [hstrip]
      have h := mk_replicate_ne_empty 3000 'a'
      rw [h3001] at h
      exact h
    · rw [hstrip, length_mk, List.length_replicate]
      norm_num [MAX_TEXT_LENGTH]

/-- C9: every successful response has `success = true`, its `data.filename`
is `safe_filename ts` — the fixed stem `kokoro_`, then the decimal rendering
of the millisecond epoch timestamp (digit characters only), then the fixed
`.wav` extension — and its `data.download_url` is the string `"/download/"`
concatenated with that filename. -/
theorem C9_success_shape (env : HandlerEnv) (duration : Nat)
    (payload : TTSRequest) (resp : APIResponse)
    (h : (synthesize_tts env duration payload).response = Except.ok resp) :
    resp.success = true ∧
    resp.data = some { filename := safe_filename env.ts,
                       download_url := "/download/" ++ safe_filename env.ts } ∧
    safe_filename env.ts = "kokoro_" ++ natStr env.ts ++ ".wav" ∧
    (∀ c ∈ (natStr env.ts).data, c.isDigit = true) := by
  obtain ⟨h1, -, -⟩ := response_ok_cases env duration payload resp h
  subst h1
  exact ⟨rfl, rfl, rfl, decimalDigits_isDigit env.ts⟩

theorem C9_witness :
    (synthesize_tts ⟨true, ⟨true, [[1, 2, 3]], true⟩, 1712000000000⟩ 0
        { text := "Hello world" }).response =
      Except.ok (successResponse (safe_filename 1712000000000)) ∧
    (successResponse (safe_filename 1712000000000)).data =
      some { filename := safe_filename 1712000000000,
             download_url := "/download/" ++ safe_filename 1712000000000 } := by
  have h := C9_success_shape ⟨true, ⟨true, [[1, 2, 3]], true⟩, 1712000000000⟩ 0
    { text := "Hello world" } (successResponse (safe_filename 1712000000000))
    (by decide)
  exact ⟨by decide, h.2.1⟩

end TTS
